import Mathlib

/-!
Verification of `gwpopulation/models/spin.py`: spin population models
(beta-distributed magnitudes, isotropic/aligned orientation mixtures, and the
correlated `chi_eff`/`chi_p` model with its grid-based normalization).
Machine floats are modelled as exact rationals; numpy arrays as lists; a numpy
shape error as `none`.
-/

namespace GwPop

/-- Modelled from the spec: the external collaborators of the missing
`gwpopulation.utils` module and of the array backend `xp` (§1/§6 of the spec
treat `beta_dist`, `truncnorm` and the elementwise exponential as supplied
primitives with contract-only semantics).  They are abstract scalar functions,
so every theorem below holds for an arbitrary implementation.  Argument
orders: `beta_dist xx alpha beta scale`, as in the source's call
`beta_dist(dataset[...], alpha, beta, scale=amax)`; `truncnorm xx mu sigma
high low`, the order under which the source's keyword call
`truncnorm(..., mu=.., sigma=.., low=-1, high=1)` in `gaussian_chi_eff` and
its positional call `truncnorm(..., 1, sigma_1, 1, -1)` in the orientation
model both denote a Gaussian with mean `mu` truncated to `[low, high]`,
matching §4.2 and §4.4 of the spec. -/
structure Utils where
  beta_dist : ℚ → ℚ → ℚ → ℚ → ℚ
  truncnorm : ℚ → ℚ → ℚ → ℚ → ℚ → ℚ
  exp : ℚ → ℚ

/-- A dataset: a mapping from spin-observable keys to numeric arrays
(spec §3), one field per key the models read. -/
structure Dataset where
  a_1 : List ℚ
  a_2 : List ℚ
  cos_tilt_1 : List ℚ
  cos_tilt_2 : List ℚ
  chi_eff : List ℚ
  chi_p : List ℚ

/-- A value a model returns: a numpy array (list) or a broadcastable scalar
(the `return 0` branch of `independent_spin_magnitude_beta`). -/
inductive NPVal where
  | scalar (x : ℚ)
  | arr (l : List ℚ)
deriving DecidableEq

/-- Numpy multiplication with scalar broadcasting: a scalar multiplies every
entry; two arrays multiply elementwise. -/
def NPVal.mul : NPVal → NPVal → NPVal
  | .scalar a, .scalar b => .scalar (a * b)
  | .scalar a, .arr l => .arr (l.map (fun y => a * y))
  | .arr l, .scalar b => .arr (l.map (fun y => y * b))
  | .arr l, .arr m => .arr (List.zipWith (fun y z => y * z) l m)

/-- Source function `independent_spin_magnitude_beta(dataset, alpha_chi_1, alpha_chi_2,
beta_chi_1, beta_chi_2, amax_1, amax_2)`: guard on negative shape parameters,
otherwise the elementwise product of the two scaled beta densities. -/
def independent_spin_magnitude_beta (u : Utils) (d : Dataset)
    (alpha_chi_1 alpha_chi_2 beta_chi_1 beta_chi_2 amax_1 amax_2 : ℚ) : NPVal :=
  if alpha_chi_1 < 0 ∨ beta_chi_1 < 0 ∨ alpha_chi_2 < 0 ∨ beta_chi_2 < 0 then
    .scalar 0
  else
    .arr (List.zipWith
      (fun x1 x2 =>
        u.beta_dist x1 alpha_chi_1 beta_chi_1 amax_1 *
          u.beta_dist x2 alpha_chi_2 beta_chi_2 amax_2)
      d.a_1 d.a_2)

/-- Source function `iid_spin_magnitude_beta(dataset, amax, alpha_chi, beta_chi)`. -/
def iid_spin_magnitude_beta (u : Utils) (d : Dataset)
    (amax alpha_chi beta_chi : ℚ) : NPVal :=
  independent_spin_magnitude_beta u d alpha_chi alpha_chi beta_chi beta_chi amax amax

/-- Source function `independent_spin_orientation_gaussian_isotropic(dataset, xi_spin,
sigma_1, sigma_2)`: the isotropic/aligned mixture over the cosine tilts. -/
def independent_spin_orientation_gaussian_isotropic (u : Utils) (d : Dataset)
    (xi_spin sigma_1 sigma_2 : ℚ) : List ℚ :=
  List.zipWith
    (fun t1 t2 =>
      (1 - xi_spin) / 4 +
        xi_spin * u.truncnorm t1 1 sigma_1 1 (-1) * u.truncnorm t2 1 sigma_2 1 (-1))
    d.cos_tilt_1 d.cos_tilt_2

/-- Source function `iid_spin_orientation_gaussian_isotropic(dataset, xi_spin, sigma_spin)`. -/
def iid_spin_orientation_gaussian_isotropic (u : Utils) (d : Dataset)
    (xi_spin sigma_spin : ℚ) : List ℚ :=
  independent_spin_orientation_gaussian_isotropic u d xi_spin sigma_spin sigma_spin

/-- Source function `iid_spin(dataset, xi_spin, sigma_spin, amax, alpha_chi, beta_chi)`:
the source multiplies the orientation density (always an array) by the
magnitude density (array, or the broadcastable scalar 0). -/
def iid_spin (u : Utils) (d : Dataset)
    (xi_spin sigma_spin amax alpha_chi beta_chi : ℚ) : NPVal :=
  NPVal.mul (.arr (iid_spin_orientation_gaussian_isotropic u d xi_spin sigma_spin))
    (iid_spin_magnitude_beta u d amax alpha_chi beta_chi)

/-- Source function `gaussian_chi_eff(dataset, mu_chi_eff, sigma_chi_eff)`: truncated Gaussian
over `chi_eff`, keyword arguments `low=-1, high=1`. -/
def gaussian_chi_eff (u : Utils) (d : Dataset) (mu_chi_eff sigma_chi_eff : ℚ) : List ℚ :=
  d.chi_eff.map (fun x => u.truncnorm x mu_chi_eff sigma_chi_eff 1 (-1))

/-- Source function `gaussian_chi_p(dataset, mu_chi_p, sigma_chi_p)`: truncated Gaussian over
`chi_p`, keyword arguments `low=0, high=1`. -/
def gaussian_chi_p (u : Utils) (d : Dataset) (mu_chi_p sigma_chi_p : ℚ) : List ℚ :=
  d.chi_p.map (fun x => u.truncnorm x mu_chi_p sigma_chi_p 1 0)

/-- Modelled from the spec: the array backend's evenly spaced sequence
generation, `xp.linspace(a, b, n)` with the endpoint included:
entry `i` is `a + (b - a) * i / (n - 1)` for `i = 0, …, n - 1`. -/
def linspace (a b : ℚ) (n : ℕ) : List ℚ :=
  (List.range n).map (fun i : ℕ => a + (b - a) * (i : ℚ) / ((n : ℚ) - 1))

/-- Modelled from the spec: the backend's 2D outer-product grid construction,
`xp.meshgrid(x, y)` with default indexing: the first output has `y.length`
rows each equal to `x`; the second has `y.length` rows, row `i` holding
`x.length` copies of `y` entry `i`. -/
def meshgrid (x y : List ℚ) : List (List ℚ) × List (List ℚ) :=
  (y.map (fun _ => x), y.map (fun yi => x.map (fun _ => yi)))

/-- One-dimensional trapezoid sum with abscissa `x`: the sum over consecutive
pairs of `(x (i+1) - x i) * (y (i+1) + y i) / 2`. -/
def trapzSum : List ℚ → List ℚ → ℚ
  | y1 :: y2 :: ys, x1 :: x2 :: xs =>
      (x2 - x1) * (y2 + y1) / 2 + trapzSum (y2 :: ys) (x2 :: xs)
  | _, _ => 0

/-- Modelled from the spec: the backend's 1D trapezoidal integration,
`xp.trapz(y=.., x=..)` for a one-dimensional `y`.  numpy broadcasts
`diff x` (length `x.length - 1`) against the length `y.length - 1` slices of
`y`; at the lengths this model produces (50 and 100 point axes) a mismatch
raises a broadcast error, modelled as `none`. -/
def trapz (y x : List ℚ) : Option ℚ :=
  if y.length = x.length then some (trapzSum y x) else none

/-- Modelled from the spec: `xp.trapz(y=prob, axis=-1, x=..)` for a
rectangular 2D `y`: every row is integrated with abscissa `x`.  numpy checks
`diff x` against the common row length (the size of the last axis); a
mismatch raises, modelled as `none`. -/
def trapzLast (y : List (List ℚ)) (x : List ℚ) : Option (List ℚ) :=
  if y.all (fun row => row.length = x.length) then
    some (y.map (fun row => trapzSum row x))
  else none

/-- The normalization-support mapping stored by `GaussianChiEffChiP.__init__`:
2D `chi_eff` and `chi_p` arrays (the meshgrid). -/
structure NormalizationData where
  chi_eff : List (List ℚ)
  chi_p : List (List ℚ)

/-- The state of a `GaussianChiEffChiP` instance: the attributes
`__init__` assigns. -/
structure GaussianChiEffChiP where
  chi_eff : List ℚ
  chi_p : List ℚ
  chi_eff_grid : List (List ℚ)
  chi_p_grid : List (List ℚ)
  normalization_data : NormalizationData

/-- Source method `GaussianChiEffChiP.__init__`: 100 points over `[-1, 1]`, 50 points over
`[0, 1]`, their meshgrid, and the normalization-support mapping. -/
def GaussianChiEffChiP.init : GaussianChiEffChiP :=
  let ce := linspace (-1) 1 100
  let cp := linspace 0 1 50
  let g := meshgrid ce cp
  ⟨ce, cp, g.1, g.2, ⟨g.1, g.2⟩⟩

/-- The scalar bivariate exponential form of
`GaussianChiEffChiP._2d_probability`, applied elementwise to whichever
`chi_eff`/`chi_p` arrays the input mapping holds (the real dataset or the
normalization grid): the single shared routine of the source. -/
def _2d_probability_form (u : Utils)
    (mu_chi_eff sigma_chi_eff mu_chi_p sigma_chi_p spin_covariance ce cp : ℚ) : ℚ :=
  let determinant := sigma_chi_eff ^ 2 * sigma_chi_p ^ 2 * (1 - spin_covariance)
  let chi_eff_residual := (mu_chi_eff - ce) * sigma_chi_eff
  let chi_p_residual := (mu_chi_p - cp) * sigma_chi_p
  u.exp (-(chi_eff_residual ^ 2 + chi_p_residual ^ 2
      - 2 * chi_eff_residual * chi_p_residual * spin_covariance) / 2 / determinant)

/-- Source method `GaussianChiEffChiP._2d_probability` on a (1D) dataset. -/
def GaussianChiEffChiP._2d_probability (u : Utils) (_self : GaussianChiEffChiP) (d : Dataset)
    (mu_chi_eff sigma_chi_eff mu_chi_p sigma_chi_p spin_covariance : ℚ) : List ℚ :=
  List.zipWith
    (_2d_probability_form u mu_chi_eff sigma_chi_eff mu_chi_p sigma_chi_p spin_covariance)
    d.chi_eff d.chi_p

/-- Source method `GaussianChiEffChiP._2d_probability` on the (2D) normalization grid:
the same elementwise form, row by row. -/
def GaussianChiEffChiP._2d_probability_grid (u : Utils) (_self : GaussianChiEffChiP)
    (nd : NormalizationData)
    (mu_chi_eff sigma_chi_eff mu_chi_p sigma_chi_p spin_covariance : ℚ) : List (List ℚ) :=
  List.zipWith
    (fun rowe rowp =>
      List.zipWith
        (_2d_probability_form u mu_chi_eff sigma_chi_eff mu_chi_p sigma_chi_p spin_covariance)
        rowe rowp)
    nd.chi_eff nd.chi_p

/-- Source method `GaussianChiEffChiP._normalization`: the source's
`xp.trapz(y=xp.trapz(y=prob, axis=-1, x=self.chi_p), axis=-1, x=self.chi_eff)`
over the 2D probability evaluated on `self.normalization_data`. -/
def GaussianChiEffChiP._normalization (u : Utils) (g : GaussianChiEffChiP)
    (mu_chi_eff sigma_chi_eff mu_chi_p sigma_chi_p spin_covariance : ℚ) : Option ℚ :=
  let prob := GaussianChiEffChiP._2d_probability_grid u g g.normalization_data
    mu_chi_eff sigma_chi_eff mu_chi_p sigma_chi_p spin_covariance
  (trapzLast prob g.chi_p).bind (fun inner => trapz inner g.chi_eff)

/-- Source method `GaussianChiEffChiP.__call__`: the decoupled product of the two marginals
when `spin_covariance == 0`, otherwise the 2D probability divided by the
grid normalization (`none` models the numpy error propagating out). -/
def GaussianChiEffChiP.call (u : Utils) (g : GaussianChiEffChiP) (d : Dataset)
    (mu_chi_eff sigma_chi_eff mu_chi_p sigma_chi_p spin_covariance : ℚ) :
    Option (List ℚ) :=
  if spin_covariance = 0 then
    some (List.zipWith (fun a b => a * b)
      (gaussian_chi_eff u d mu_chi_eff sigma_chi_eff)
      (gaussian_chi_p u d mu_chi_p sigma_chi_p))
  else
    match GaussianChiEffChiP._normalization u g
        mu_chi_eff sigma_chi_eff mu_chi_p sigma_chi_p spin_covariance with
    | none => none
    | some n =>
        some ((GaussianChiEffChiP._2d_probability u g d
          mu_chi_eff sigma_chi_eff mu_chi_p sigma_chi_p spin_covariance).map
            (fun p => p / n))

/-- Method `__call__` as a transformer of the instance state: the source's method body
assigns no attribute of `self`, so the state after the call is the state it was
given, paired with the returned probability. -/
def GaussianChiEffChiP.callS (u : Utils) (g : GaussianChiEffChiP) (d : Dataset)
    (mu_chi_eff sigma_chi_eff mu_chi_p sigma_chi_p spin_covariance : ℚ) :
    Option (List ℚ) × GaussianChiEffChiP :=
  (GaussianChiEffChiP.call u g d
    mu_chi_eff sigma_chi_eff mu_chi_p sigma_chi_p spin_covariance, g)

/-- The states of a `GaussianChiEffChiP` instance reachable from construction
by any sequence of `__call__` invocations. -/
inductive GaussianChiEffChiP.Reachable : GaussianChiEffChiP → Prop where
  | construct : GaussianChiEffChiP.Reachable GaussianChiEffChiP.init
  | step (u : Utils) (d : Dataset) (mu_chi_eff sigma_chi_eff mu_chi_p sigma_chi_p
      spin_covariance : ℚ) {g : GaussianChiEffChiP} :
      GaussianChiEffChiP.Reachable g →
      GaussianChiEffChiP.Reachable
        (GaussianChiEffChiP.callS u g d
          mu_chi_eff sigma_chi_eff mu_chi_p sigma_chi_p spin_covariance).2

/-- Modelled from the spec: §6's `TruncGaussian(x, mu, sigma, low, high)`
contract, realized by the missing utils `truncnorm` primitive whose positional
order the source's keyword call fixes as `(xx, mu, sigma, high, low)`. -/
def TruncGaussian (u : Utils) (x mu sigma low high : ℚ) : ℚ :=
  u.truncnorm x mu sigma high low

/-- Modelled from the spec: §6's `BetaDensity(x, alpha, beta, scale)` contract,
realized by the missing utils `beta_dist` primitive. -/
def BetaDensity (u : Utils) (x alpha beta scale : ℚ) : ℚ :=
  u.beta_dist x alpha beta scale

/-! ## A store of caller-owned arrays

The dataset is owned by the caller and passed by reference (spec §3); to state
that no model mutates it, the models are replayed against an explicit store of
arrays.  A dataset is a record of references into the store; reading a key is
a store lookup, every numpy arithmetic result is a fresh allocation, and the
source's in-place updates (`prob *= ...`, `prob /= ...`) are writes to the
reference previously allocated for `prob`. -/

/-- The array store: arrays live at numeric references. -/
abbrev Heap := List (List ℚ)

/-- Read the array at reference `r`. -/
def readA (h : Heap) (r : ℕ) : List ℚ :=
  h.getD r []

/-- Allocate a fresh array: the new store and the new reference. -/
def alloc (h : Heap) (v : List ℚ) : Heap × ℕ :=
  (h ++ [v], h.length)

/-- Overwrite the array at reference `r` (an in-place numpy update). -/
def writeA (h : Heap) (r : ℕ) (v : List ℚ) : Heap :=
  h.set r v

/-- A dataset as the caller passes it: references into the store, one per
spin-observable key. -/
structure DatasetRefs where
  a_1 : ℕ
  a_2 : ℕ
  cos_tilt_1 : ℕ
  cos_tilt_2 : ℕ
  chi_eff : ℕ
  chi_p : ℕ

/-- A store-level model value: a reference to an array, or a bare scalar. -/
inductive HVal where
  | scalar (x : ℚ)
  | ref (r : ℕ)

/-- Source function `independent_spin_magnitude_beta` against the store: reads `a_1`/`a_2`,
allocates the product array (no in-place update occurs in the source). -/
def independent_spin_magnitude_betaH (u : Utils) (h : Heap) (dr : DatasetRefs)
    (alpha_chi_1 alpha_chi_2 beta_chi_1 beta_chi_2 amax_1 amax_2 : ℚ) : Heap × HVal :=
  if alpha_chi_1 < 0 ∨ beta_chi_1 < 0 ∨ alpha_chi_2 < 0 ∨ beta_chi_2 < 0 then
    (h, .scalar 0)
  else
    let p := alloc h (List.zipWith
      (fun x1 x2 =>
        u.beta_dist x1 alpha_chi_1 beta_chi_1 amax_1 *
          u.beta_dist x2 alpha_chi_2 beta_chi_2 amax_2)
      (readA h dr.a_1) (readA h dr.a_2))
    (p.1, .ref p.2)

/-- Source function `iid_spin_magnitude_beta` against the store. -/
def iid_spin_magnitude_betaH (u : Utils) (h : Heap) (dr : DatasetRefs)
    (amax alpha_chi beta_chi : ℚ) : Heap × HVal :=
  independent_spin_magnitude_betaH u h dr alpha_chi alpha_chi beta_chi beta_chi amax amax

/-- Source function `independent_spin_orientation_gaussian_isotropic` against the store:
reads the cosine tilts, allocates the mixture array. -/
def independent_spin_orientation_gaussian_isotropicH (u : Utils) (h : Heap)
    (dr : DatasetRefs) (xi_spin sigma_1 sigma_2 : ℚ) : Heap × ℕ :=
  alloc h (List.zipWith
    (fun t1 t2 =>
      (1 - xi_spin) / 4 +
        xi_spin * u.truncnorm t1 1 sigma_1 1 (-1) * u.truncnorm t2 1 sigma_2 1 (-1))
    (readA h dr.cos_tilt_1) (readA h dr.cos_tilt_2))

/-- Source function `iid_spin_orientation_gaussian_isotropic` against the store. -/
def iid_spin_orientation_gaussian_isotropicH (u : Utils) (h : Heap)
    (dr : DatasetRefs) (xi_spin sigma_spin : ℚ) : Heap × ℕ :=
  independent_spin_orientation_gaussian_isotropicH u h dr xi_spin sigma_spin sigma_spin

/-- Source function `iid_spin` against the store: the orientation array times the magnitude
value, allocated fresh (the source binds `prior` to the product). -/
def iid_spinH (u : Utils) (h : Heap) (dr : DatasetRefs)
    (xi_spin sigma_spin amax alpha_chi beta_chi : ℚ) : Heap × ℕ :=
  let o := iid_spin_orientation_gaussian_isotropicH u h dr xi_spin sigma_spin
  let m := iid_spin_magnitude_betaH u o.1 dr amax alpha_chi beta_chi
  match m.2 with
  | .scalar s => alloc m.1 ((readA m.1 o.2).map (fun y => y * s))
  | .ref r => alloc m.1 (List.zipWith (fun y z => y * z) (readA m.1 o.2) (readA m.1 r))

/-- Source function `gaussian_chi_eff` against the store. -/
def gaussian_chi_effH (u : Utils) (h : Heap) (dr : DatasetRefs)
    (mu_chi_eff sigma_chi_eff : ℚ) : Heap × ℕ :=
  alloc h ((readA h dr.chi_eff).map (fun x => u.truncnorm x mu_chi_eff sigma_chi_eff 1 (-1)))

/-- Source function `gaussian_chi_p` against the store. -/
def gaussian_chi_pH (u : Utils) (h : Heap) (dr : DatasetRefs)
    (mu_chi_p sigma_chi_p : ℚ) : Heap × ℕ :=
  alloc h ((readA h dr.chi_p).map (fun x => u.truncnorm x mu_chi_p sigma_chi_p 1 0))

/-- Source method `GaussianChiEffChiP.__call__` against the store: the zero-covariance
branch binds `prob` to the freshly allocated `gaussian_chi_eff` result and
updates it in place (`prob *= ...`); the other branch allocates the 2D
probability and divides it in place by the normalization (`prob /= ...`),
unless the normalization raises (`none`). -/
def GaussianChiEffChiP.callH (u : Utils) (g : GaussianChiEffChiP) (h : Heap)
    (dr : DatasetRefs)
    (mu_chi_eff sigma_chi_eff mu_chi_p sigma_chi_p spin_covariance : ℚ) :
    Heap × Option ℕ :=
  if spin_covariance = 0 then
    let p := gaussian_chi_effH u h dr mu_chi_eff sigma_chi_eff
    let q := gaussian_chi_pH u p.1 dr mu_chi_p sigma_chi_p
    let h3 := writeA q.1 p.2
      (List.zipWith (fun a b => a * b) (readA q.1 p.2) (readA q.1 q.2))
    (h3, some p.2)
  else
    let p := alloc h (List.zipWith
      (_2d_probability_form u mu_chi_eff sigma_chi_eff mu_chi_p sigma_chi_p spin_covariance)
      (readA h dr.chi_eff) (readA h dr.chi_p))
    match GaussianChiEffChiP._normalization u g
        mu_chi_eff sigma_chi_eff mu_chi_p sigma_chi_p spin_covariance with
    | none => (p.1, none)
    | some n => (writeA p.1 p.2 ((readA p.1 p.2).map (fun y => y / n)), some p.2)

/-! ## Concrete sample inputs -/

/-- A concrete instance of the external primitives, for evaluating the model
at sample inputs. -/
def uDemo : Utils :=
  ⟨fun x alpha beta scale => x + alpha + beta + scale,
   fun x mu sigma hi lo => x + mu + sigma + hi + lo,
   fun x => 1 + x⟩

/-- A concrete one-observation dataset. -/
def dDemo : Dataset :=
  ⟨[1/2], [3/10], [1], [1], [0], [0]⟩

/-- A concrete store holding one array per dataset key. -/
def hDemo : Heap :=
  [[1/2], [3/10], [1], [1], [0], [0]]

/-- References of `hDemo`'s arrays, key by key. -/
def drDemo : DatasetRefs :=
  ⟨0, 1, 2, 3, 4, 5⟩

end GwPop

namespace GwPop

/-- Multiplication with numpy broadcasting commutes. -/
theorem NPVal.mul_comm (a b : NPVal) : NPVal.mul a b = NPVal.mul b a := by
  cases a <;> cases b <;> simp [NPVal.mul, Rat.mul_comm]
  · exact List.zipWith_comm_of_comm _ Rat.mul_comm _ _

/-- C2: for every input mapping with `chi_eff` and `chi_p` arrays and all
scalar hyper-parameters, `_2d_probability` returns, elementwise,
`exp(-(r_eff^2 + r_p^2 - 2 r_eff r_p spin_covariance) / (2 det))` with
`r_eff = (mu_chi_eff - chi_eff) * sigma_chi_eff`,
`r_p = (mu_chi_p - chi_p) * sigma_chi_p` and
`det = sigma_chi_eff^2 * sigma_chi_p^2 * (1 - spin_covariance)`. -/
theorem C2_2d_probability_formula (u : Utils) (g : GaussianChiEffChiP) (d : Dataset)
    (mu_chi_eff sigma_chi_eff mu_chi_p sigma_chi_p spin_covariance : ℚ) :
    GaussianChiEffChiP._2d_probability u g d
      mu_chi_eff sigma_chi_eff mu_chi_p sigma_chi_p spin_covariance =
    List.zipWith
      (fun ce cp =>
        u.exp (-(((mu_chi_eff - ce) * sigma_chi_eff) ^ 2
            + ((mu_chi_p - cp) * sigma_chi_p) ^ 2
            - 2 * ((mu_chi_eff - ce) * sigma_chi_eff) * ((mu_chi_p - cp) * sigma_chi_p)
              * spin_covariance)
          / (2 * (sigma_chi_eff ^ 2 * sigma_chi_p ^ 2 * (1 - spin_covariance)))))
      d.chi_eff d.chi_p := by
  have hf : _2d_probability_form u mu_chi_eff sigma_chi_eff mu_chi_p sigma_chi_p
      spin_covariance =
      fun ce cp =>
        u.exp (-(((mu_chi_eff - ce) * sigma_chi_eff) ^ 2
            + ((mu_chi_p - cp) * sigma_chi_p) ^ 2
            - 2 * ((mu_chi_eff - ce) * sigma_chi_eff) * ((mu_chi_p - cp) * sigma_chi_p)
              * spin_covariance)
          / (2 * (sigma_chi_eff ^ 2 * sigma_chi_p ^ 2 * (1 - spin_covariance)))) := by
    funext ce cp
    simp only [_2d_probability_form, div_div]
  rw [GaussianChiEffChiP._2d_probability, hf]

/-- C3: with `spin_covariance = 0`, `__call__` returns the elementwise product
of the two marginal truncated-Gaussian densities, with no grid
normalization. -/
theorem C3_zero_covariance_is_marginal_product (u : Utils) (g : GaussianChiEffChiP)
    (d : Dataset) (mu_chi_eff sigma_chi_eff mu_chi_p sigma_chi_p : ℚ) :
    GaussianChiEffChiP.call u g d mu_chi_eff sigma_chi_eff mu_chi_p sigma_chi_p 0 =
    some (List.zipWith (fun a b => a * b)
      (gaussian_chi_eff u d mu_chi_eff sigma_chi_eff)
      (gaussian_chi_p u d mu_chi_p sigma_chi_p)) := by
  simp [GaussianChiEffChiP.call]

/-- C4: the orientation model returns, elementwise,
`(1 - xi_spin)/4 + xi_spin * TruncGaussian(cos_tilt_1; 1, sigma_1, [-1,1])
* TruncGaussian(cos_tilt_2; 1, sigma_2, [-1,1])`. -/
theorem C4_orientation_mixture (u : Utils) (d : Dataset) (xi_spin sigma_1 sigma_2 : ℚ) :
    independent_spin_orientation_gaussian_isotropic u d xi_spin sigma_1 sigma_2 =
    List.zipWith
      (fun c1 c2 =>
        (1 - xi_spin) / 4 +
          xi_spin * TruncGaussian u c1 1 sigma_1 (-1) 1 * TruncGaussian u c2 1 sigma_2 (-1) 1)
      d.cos_tilt_1 d.cos_tilt_2 := rfl

/-- C5: with all four shape parameters non-negative,
`independent_spin_magnitude_beta` returns the elementwise product
`BetaDensity(a_1; alpha_chi_1, beta_chi_1, amax_1) *
BetaDensity(a_2; alpha_chi_2, beta_chi_2, amax_2)`. -/
theorem C5_magnitude_beta_product (u : Utils) (d : Dataset)
    (alpha_chi_1 alpha_chi_2 beta_chi_1 beta_chi_2 amax_1 amax_2 : ℚ)
    (h1 : 0 ≤ alpha_chi_1) (h2 : 0 ≤ alpha_chi_2)
    (h3 : 0 ≤ beta_chi_1) (h4 : 0 ≤ beta_chi_2) :
    independent_spin_magnitude_beta u d
      alpha_chi_1 alpha_chi_2 beta_chi_1 beta_chi_2 amax_1 amax_2 =
    .arr (List.zipWith
      (fun x1 x2 =>
        BetaDensity u x1 alpha_chi_1 beta_chi_1 amax_1 *
          BetaDensity u x2 alpha_chi_2 beta_chi_2 amax_2)
      d.a_1 d.a_2) := by
  rw [independent_spin_magnitude_beta, if_neg]
  · rfl
  · rintro (h | h | h | h) <;> linarith

/-- Witness for C5 at concrete inputs. -/
theorem C5_magnitude_beta_product_witness :
    independent_spin_magnitude_beta uDemo dDemo 1 1 1 1 1 1 =
    .arr (List.zipWith
      (fun x1 x2 => BetaDensity uDemo x1 1 1 1 * BetaDensity uDemo x2 1 1 1)
      dDemo.a_1 dDemo.a_2) :=
  C5_magnitude_beta_product uDemo dDemo 1 1 1 1 1 1
    (by norm_num) (by norm_num) (by norm_num) (by norm_num)

/-- C6: with any negative shape parameter, `independent_spin_magnitude_beta`
returns the bare scalar 0, for every dataset, every `amax` and every
implementation of the beta-density primitive (so the primitive is not
consulted). -/
theorem C6_negative_shape_returns_scalar_zero (u : Utils) (d : Dataset)
    (alpha_chi_1 alpha_chi_2 beta_chi_1 beta_chi_2 amax_1 amax_2 : ℚ)
    (h : alpha_chi_1 < 0 ∨ beta_chi_1 < 0 ∨ alpha_chi_2 < 0 ∨ beta_chi_2 < 0) :
    independent_spin_magnitude_beta u d
      alpha_chi_1 alpha_chi_2 beta_chi_1 beta_chi_2 amax_1 amax_2 = .scalar 0 := by
  rw [independent_spin_magnitude_beta, if_pos h]

/-- Witness for C6 at concrete inputs. -/
theorem C6_negative_shape_returns_scalar_zero_witness :
    independent_spin_magnitude_beta uDemo dDemo (-1) 1 1 1 1 1 = .scalar 0 :=
  C6_negative_shape_returns_scalar_zero uDemo dDemo (-1) 1 1 1 1 1 (by norm_num)

/-- C7: `iid_spin` is the broadcast product of the identical-magnitude and
identical-orientation densities, for every dataset and hyper-parameters. -/
theorem C7_iid_spin_composition (u : Utils) (d : Dataset)
    (xi_spin sigma_spin amax alpha_chi beta_chi : ℚ) :
    iid_spin u d xi_spin sigma_spin amax alpha_chi beta_chi =
    NPVal.mul (iid_spin_magnitude_beta u d amax alpha_chi beta_chi)
      (.arr (iid_spin_orientation_gaussian_isotropic u d xi_spin sigma_spin)) := by
  rw [iid_spin, NPVal.mul_comm]

/-- C10: `independent_spin_magnitude_beta` returns the scalar-zero sentinel
exactly when some shape parameter is strictly negative; at every non-negative
combination (zero included) it returns the array of beta-density products
instead. -/
theorem C10_scalar_zero_iff_negative_shape (u : Utils) (d : Dataset)
    (alpha_chi_1 alpha_chi_2 beta_chi_1 beta_chi_2 amax_1 amax_2 : ℚ) :
    independent_spin_magnitude_beta u d
      alpha_chi_1 alpha_chi_2 beta_chi_1 beta_chi_2 amax_1 amax_2 = .scalar 0 ↔
    (alpha_chi_1 < 0 ∨ beta_chi_1 < 0 ∨ alpha_chi_2 < 0 ∨ beta_chi_2 < 0) := by
  by_cases h : alpha_chi_1 < 0 ∨ beta_chi_1 < 0 ∨ alpha_chi_2 < 0 ∨ beta_chi_2 < 0 <;>
    simp [independent_spin_magnitude_beta, h]

end GwPop

namespace GwPop

/-- The sequence `linspace a b n` has `n` points. -/
theorem linspace_length (a b : ℚ) (n : ℕ) : (linspace a b n).length = n := by
  rw [linspace, List.length_map, List.length_range]

/-- When some row's length differs from the abscissa's, the axis-wise
trapezoid raises (numpy broadcast error). -/
theorem trapzLast_eq_none_of_mem (y : List (List ℚ)) (x : List ℚ) (row : List ℚ)
    (hmem : row ∈ y) (hlen : row.length ≠ x.length) : trapzLast y x = none := by
  have hcond : ¬ (y.all (fun r => r.length = x.length) = true) := by
    rw [List.all_eq_true]
    intro hall
    exact hlen (by simpa using hall row hmem)
  rw [trapzLast, if_neg hcond]

/-- On the constructed grid, `_normalization` always raises: the inner
trapezoid runs along the last axis (100 `chi_eff` points per row) with the
50-point `chi_p` array as abscissa. -/
theorem normalization_init_raises (u : Utils)
    (mu_chi_eff sigma_chi_eff mu_chi_p sigma_chi_p spin_covariance : ℚ) :
    GaussianChiEffChiP._normalization u GaussianChiEffChiP.init
      mu_chi_eff sigma_chi_eff mu_chi_p sigma_chi_p spin_covariance = none := by
  have h50 : (linspace 0 1 50).length = 50 := linspace_length 0 1 50
  have h100 : (linspace (-1) 1 100).length = 100 := linspace_length (-1) 1 100
  have hlenE :
      (List.zipWith
        (fun rowe rowp => List.zipWith
          (_2d_probability_form u mu_chi_eff sigma_chi_eff mu_chi_p sigma_chi_p
            spin_covariance) rowe rowp)
        ((linspace 0 1 50).map (fun _ => linspace (-1) 1 100))
        ((linspace 0 1 50).map
          (fun yi => (linspace (-1) 1 100).map (fun _ => yi)))).length = 50 := by
    rw [List.length_zipWith, List.length_map, List.length_map, h50, min_self]
  have h0E : 0 <
      (List.zipWith
        (fun rowe rowp => List.zipWith
          (_2d_probability_form u mu_chi_eff sigma_chi_eff mu_chi_p sigma_chi_p
            spin_covariance) rowe rowp)
        ((linspace 0 1 50).map (fun _ => linspace (-1) 1 100))
        ((linspace 0 1 50).map
          (fun yi => (linspace (-1) 1 100).map (fun _ => yi)))).length := by
    rw [hlenE]; norm_num
  have hrowlenE :
      ((List.zipWith
        (fun rowe rowp => List.zipWith
          (_2d_probability_form u mu_chi_eff sigma_chi_eff mu_chi_p sigma_chi_p
            spin_covariance) rowe rowp)
        ((linspace 0 1 50).map (fun _ => linspace (-1) 1 100))
        ((linspace 0 1 50).map
          (fun yi => (linspace (-1) 1 100).map (fun _ => yi))))[0]).length
        = 100 := by
    simp only [List.getElem_zipWith, List.getElem_map, List.length_zipWith,
      List.length_map, h100, min_self]
  have hnoneE : trapzLast
      (List.zipWith
        (fun rowe rowp => List.zipWith
          (_2d_probability_form u mu_chi_eff sigma_chi_eff mu_chi_p sigma_chi_p
            spin_covariance) rowe rowp)
        ((linspace 0 1 50).map (fun _ => linspace (-1) 1 100))
        ((linspace 0 1 50).map
          (fun yi => (linspace (-1) 1 100).map (fun _ => yi))))
      GaussianChiEffChiP.init.chi_p = none := by
    refine trapzLast_eq_none_of_mem _ _ _ (List.getElem_mem h0E) ?_
    rw [hrowlenE]
    have hcp : GaussianChiEffChiP.init.chi_p.length = 50 := h50
    rw [hcp]
    norm_num
  have hprob :
      GaussianChiEffChiP._2d_probability_grid u GaussianChiEffChiP.init
        GaussianChiEffChiP.init.normalization_data
        mu_chi_eff sigma_chi_eff mu_chi_p sigma_chi_p spin_covariance =
      List.zipWith
        (fun rowe rowp => List.zipWith
          (_2d_probability_form u mu_chi_eff sigma_chi_eff mu_chi_p sigma_chi_p
            spin_covariance) rowe rowp)
        ((linspace 0 1 50).map (fun _ => linspace (-1) 1 100))
        ((linspace 0 1 50).map
          (fun yi => (linspace (-1) 1 100).map (fun _ => yi))) := rfl
  show (trapzLast
      (GaussianChiEffChiP._2d_probability_grid u GaussianChiEffChiP.init
        GaussianChiEffChiP.init.normalization_data
        mu_chi_eff sigma_chi_eff mu_chi_p sigma_chi_p spin_covariance)
      GaussianChiEffChiP.init.chi_p).bind
      (fun inner => trapz inner GaussianChiEffChiP.init.chi_eff) = none
  rw [hprob, hnoneE]
  rfl

/-- C1 (code bug): for every dataset and hyper-parameters with nonzero
`spin_covariance`, `__call__` on a freshly constructed `GaussianChiEffChiP`
propagates the numpy broadcast error raised inside `_normalization` (the
source passes `x=self.chi_p` to the trapezoid that runs along the 100-point
`chi_eff` axis, and `x=self.chi_eff` to the one that runs along the 50-point
`chi_p` axis), so no density is ever returned. -/
theorem C1_call_raises_for_nonzero_covariance (u : Utils) (d : Dataset)
    (mu_chi_eff sigma_chi_eff mu_chi_p sigma_chi_p spin_covariance : ℚ)
    (h : spin_covariance ≠ 0) :
    GaussianChiEffChiP.call u GaussianChiEffChiP.init d
      mu_chi_eff sigma_chi_eff mu_chi_p sigma_chi_p spin_covariance = none := by
  rw [GaussianChiEffChiP.call, if_neg h, normalization_init_raises]

/-- Witness for C1 at concrete inputs. -/
theorem C1_call_raises_for_nonzero_covariance_witness :
    GaussianChiEffChiP.call uDemo GaussianChiEffChiP.init dDemo 0 1 0 1 (1/2) = none :=
  C1_call_raises_for_nonzero_covariance uDemo dDemo 0 1 0 1 (1/2) (by norm_num)

end GwPop

namespace GwPop

/-- C8: at every reachable state of a `GaussianChiEffChiP` instance the stored
data is exactly the construction-time grid — the `chi_eff` axis holds 100
evenly spaced points over `[-1, 1]`, the `chi_p` axis 50 evenly spaced points
over `[0, 1]`, the grids are their outer-product meshgrid and the
normalization mapping aliases them — and no sequence of `__call__`
invocations alters any of it. -/
theorem C8_grid_fixed_and_immutable (g : GaussianChiEffChiP)
    (h : GaussianChiEffChiP.Reachable g) :
    g.chi_eff = linspace (-1) 1 100 ∧
    g.chi_p = linspace 0 1 50 ∧
    g.chi_eff_grid = (meshgrid (linspace (-1) 1 100) (linspace 0 1 50)).1 ∧
    g.chi_p_grid = (meshgrid (linspace (-1) 1 100) (linspace 0 1 50)).2 ∧
    g.normalization_data.chi_eff = g.chi_eff_grid ∧
    g.normalization_data.chi_p = g.chi_p_grid ∧
    g.chi_eff.length = 100 ∧
    g.chi_p.length = 50 ∧
    (∀ i : ℕ, i < 100 → g.chi_eff[i]? = some (-1 + 2 * (i : ℚ) / 99)) ∧
    (∀ i : ℕ, i < 50 → g.chi_p[i]? = some ((i : ℚ) / 49)) ∧
    (∀ i j : ℕ, i < 50 → j < 100 →
      (g.chi_eff_grid.getD i []).getD j 0 = g.chi_eff.getD j 0 ∧
      (g.chi_p_grid.getD i []).getD j 0 = g.chi_p.getD i 0) := by
  induction h with
  | construct =>
    have hce : GaussianChiEffChiP.init.chi_eff = linspace (-1) 1 100 := rfl
    have hcp : GaussianChiEffChiP.init.chi_p = linspace 0 1 50 := rfl
    have hgce : GaussianChiEffChiP.init.chi_eff_grid
        = (linspace 0 1 50).map (fun _ => linspace (-1) 1 100) := rfl
    have hgcp : GaussianChiEffChiP.init.chi_p_grid
        = (linspace 0 1 50).map
            (fun yi => (linspace (-1) 1 100).map (fun _ => yi)) := rfl
    refine ⟨rfl, rfl, rfl, rfl, rfl, rfl,
      linspace_length (-1) 1 100, linspace_length 0 1 50, ?_, ?_, ?_⟩
    · intro i hi
      rw [hce, linspace, List.getElem?_map, List.getElem?_range hi]
      simp only [Option.map_some']
      norm_num
    · intro i hi
      rw [hcp, linspace, List.getElem?_map, List.getElem?_range hi]
      simp only [Option.map_some']
      norm_num
    · intro i j hi hj
      have hi' : i < (linspace 0 1 50).length := by rw [linspace_length]; exact hi
      have hj' : j < (linspace (-1) 1 100).length := by rw [linspace_length]; exact hj
      have hrow1 : ((linspace 0 1 50).map
          (fun _ => linspace (-1) 1 100)).getD i [] = linspace (-1) 1 100 := by
        rw [List.getD_eq_getElem?_getD, List.getElem?_map,
          List.getElem?_eq_getElem hi']
        simp only [Option.map_some', Option.getD_some]
      have hrow2 : ((linspace 0 1 50).map
          (fun yi => (linspace (-1) 1 100).map (fun _ => yi))).getD i []
          = (linspace (-1) 1 100).map (fun _ => (linspace 0 1 50)[i]) := by
        rw [List.getD_eq_getElem?_getD, List.getElem?_map,
          List.getElem?_eq_getElem hi']
        simp only [Option.map_some', Option.getD_some]
      constructor
      · rw [hgce, hrow1]
        rfl
      · rw [hgcp, hrow2]
        rw [List.getD_eq_getElem?_getD, List.getElem?_map,
          List.getElem?_eq_getElem hj']
        simp only [Option.map_some', Option.getD_some]
        rw [hcp, List.getD_eq_getElem?_getD, List.getElem?_eq_getElem hi']
        simp only [Option.getD_some]
  | step u d mu_chi_eff sigma_chi_eff mu_chi_p sigma_chi_p spin_covariance hg ih =>
    exact ih

/-- Witness for C8: the construction-time state is reachable and satisfies
the invariant. -/
theorem C8_grid_fixed_and_immutable_witness :
    GaussianChiEffChiP.init.chi_eff = linspace (-1) 1 100 ∧
    GaussianChiEffChiP.init.chi_p = linspace 0 1 50 ∧
    GaussianChiEffChiP.init.chi_eff_grid
      = (meshgrid (linspace (-1) 1 100) (linspace 0 1 50)).1 ∧
    GaussianChiEffChiP.init.chi_p_grid
      = (meshgrid (linspace (-1) 1 100) (linspace 0 1 50)).2 ∧
    GaussianChiEffChiP.init.normalization_data.chi_eff
      = GaussianChiEffChiP.init.chi_eff_grid ∧
    GaussianChiEffChiP.init.normalization_data.chi_p
      = GaussianChiEffChiP.init.chi_p_grid ∧
    GaussianChiEffChiP.init.chi_eff.length = 100 ∧
    GaussianChiEffChiP.init.chi_p.length = 50 ∧
    (∀ i : ℕ, i < 100 →
      GaussianChiEffChiP.init.chi_eff[i]? = some (-1 + 2 * (i : ℚ) / 99)) ∧
    (∀ i : ℕ, i < 50 →
      GaussianChiEffChiP.init.chi_p[i]? = some ((i : ℚ) / 49)) ∧
    (∀ i j : ℕ, i < 50 → j < 100 →
      (GaussianChiEffChiP.init.chi_eff_grid.getD i []).getD j 0
        = GaussianChiEffChiP.init.chi_eff.getD j 0 ∧
      (GaussianChiEffChiP.init.chi_p_grid.getD i []).getD j 0
        = GaussianChiEffChiP.init.chi_p.getD i 0) :=
  C8_grid_fixed_and_immutable GaussianChiEffChiP.init
    GaussianChiEffChiP.Reachable.construct

end GwPop

namespace GwPop

/-- Store `h'` preserves store `h`: it is at least as long and every existing
reference reads the same array. -/
def HeapPreserved (h h' : Heap) : Prop :=
  h.length ≤ h'.length ∧ ∀ r : ℕ, r < h.length → readA h' r = readA h r

theorem heapPreserved_refl (h : Heap) : HeapPreserved h h :=
  ⟨le_refl _, fun _ _ => rfl⟩

theorem heapPreserved_trans {h1 h2 h3 : Heap}
    (a : HeapPreserved h1 h2) (b : HeapPreserved h2 h3) : HeapPreserved h1 h3 :=
  ⟨le_trans a.1 b.1, fun r hr => (b.2 r (lt_of_lt_of_le hr a.1)).trans (a.2 r hr)⟩

/-- Allocation preserves every existing reference. -/
theorem heapPreserved_alloc (h : Heap) (v : List ℚ) :
    HeapPreserved h (alloc h v).1 := by
  refine ⟨by simp [alloc], fun r hr => ?_⟩
  simp only [alloc, readA]
  rw [List.getD_append _ _ _ _ hr]

/-- Writing at or above the original length preserves every original
reference. -/
theorem heapPreserved_writeA {h h' : Heap} (r0 : ℕ) (v : List ℚ)
    (he : HeapPreserved h h') (hr0 : h.length ≤ r0) :
    HeapPreserved h (writeA h' r0 v) := by
  refine ⟨by simpa [writeA] using he.1, fun r hr => ?_⟩
  have hne : r0 ≠ r := by omega
  rw [← he.2 r hr]
  simp only [writeA, readA, List.getD_eq_getElem?_getD]
  rw [List.getElem?_set_ne hne]

theorem independent_spin_magnitude_betaH_preserves (u : Utils) (h : Heap)
    (dr : DatasetRefs) (a1 a2 b1 b2 m1 m2 : ℚ) :
    HeapPreserved h (independent_spin_magnitude_betaH u h dr a1 a2 b1 b2 m1 m2).1 := by
  rw [independent_spin_magnitude_betaH]
  split
  · exact heapPreserved_refl h
  · exact heapPreserved_alloc h _

theorem iid_spin_magnitude_betaH_preserves (u : Utils) (h : Heap)
    (dr : DatasetRefs) (amax alpha_chi beta_chi : ℚ) :
    HeapPreserved h (iid_spin_magnitude_betaH u h dr amax alpha_chi beta_chi).1 :=
  independent_spin_magnitude_betaH_preserves u h dr _ _ _ _ _ _

theorem independent_spin_orientation_gaussian_isotropicH_preserves (u : Utils)
    (h : Heap) (dr : DatasetRefs) (xi_spin sigma_1 sigma_2 : ℚ) :
    HeapPreserved h
      (independent_spin_orientation_gaussian_isotropicH u h dr xi_spin sigma_1 sigma_2).1 :=
  heapPreserved_alloc h _

theorem iid_spin_orientation_gaussian_isotropicH_preserves (u : Utils)
    (h : Heap) (dr : DatasetRefs) (xi_spin sigma_spin : ℚ) :
    HeapPreserved h
      (iid_spin_orientation_gaussian_isotropicH u h dr xi_spin sigma_spin).1 :=
  heapPreserved_alloc h _

theorem iid_spinH_preserves (u : Utils) (h : Heap) (dr : DatasetRefs)
    (xi_spin sigma_spin amax alpha_chi beta_chi : ℚ) :
    HeapPreserved h (iid_spinH u h dr xi_spin sigma_spin amax alpha_chi beta_chi).1 := by
  rw [iid_spinH]
  have ho := iid_spin_orientation_gaussian_isotropicH_preserves u h dr xi_spin sigma_spin
  have hm := iid_spin_magnitude_betaH_preserves u
    (iid_spin_orientation_gaussian_isotropicH u h dr xi_spin sigma_spin).1 dr
    amax alpha_chi beta_chi
  have hom := heapPreserved_trans ho hm
  split
  · exact heapPreserved_trans hom (heapPreserved_alloc _ _)
  · exact heapPreserved_trans hom (heapPreserved_alloc _ _)

theorem gaussian_chi_effH_preserves (u : Utils) (h : Heap) (dr : DatasetRefs)
    (mu_chi_eff sigma_chi_eff : ℚ) :
    HeapPreserved h (gaussian_chi_effH u h dr mu_chi_eff sigma_chi_eff).1 :=
  heapPreserved_alloc h _

theorem gaussian_chi_pH_preserves (u : Utils) (h : Heap) (dr : DatasetRefs)
    (mu_chi_p sigma_chi_p : ℚ) :
    HeapPreserved h (gaussian_chi_pH u h dr mu_chi_p sigma_chi_p).1 :=
  heapPreserved_alloc h _

theorem callH_preserves (u : Utils) (g : GaussianChiEffChiP) (h : Heap)
    (dr : DatasetRefs)
    (mu_chi_eff sigma_chi_eff mu_chi_p sigma_chi_p spin_covariance : ℚ) :
    HeapPreserved h
      (GaussianChiEffChiP.callH u g h dr
        mu_chi_eff sigma_chi_eff mu_chi_p sigma_chi_p spin_covariance).1 := by
  rw [GaussianChiEffChiP.callH]
  split
  · refine heapPreserved_writeA _ _
      (heapPreserved_trans (gaussian_chi_effH_preserves u h dr mu_chi_eff sigma_chi_eff)
        (gaussian_chi_pH_preserves u _ dr mu_chi_p sigma_chi_p)) ?_
    exact le_refl _
  · split
    · exact heapPreserved_alloc h _
    · exact heapPreserved_writeA _ _ (heapPreserved_alloc h _) (le_refl _)

/-- C9: every public model operation leaves the caller's dataset intact:
whatever array a valid reference of the store held before the call, it holds
after it (the dataset record of references itself is passed by value and
cannot change).  This covers `iid_spin`, both magnitude models, both
orientation models, the two effective-spin marginals and
`GaussianChiEffChiP.__call__` in both covariance branches. -/
theorem C9_models_do_not_mutate_dataset (u : Utils) (g : GaussianChiEffChiP)
    (h : Heap) (dr : DatasetRefs)
    (xi_spin sigma_spin sigma_1 sigma_2 amax alpha_chi beta_chi
      alpha_chi_1 alpha_chi_2 beta_chi_1 beta_chi_2 amax_1 amax_2
      mu_chi_eff sigma_chi_eff mu_chi_p sigma_chi_p spin_covariance : ℚ)
    (r : ℕ) (hr : r < h.length) :
    readA (iid_spinH u h dr xi_spin sigma_spin amax alpha_chi beta_chi).1 r
      = readA h r ∧
    readA (iid_spin_magnitude_betaH u h dr amax alpha_chi beta_chi).1 r
      = readA h r ∧
    readA (independent_spin_magnitude_betaH u h dr
      alpha_chi_1 alpha_chi_2 beta_chi_1 beta_chi_2 amax_1 amax_2).1 r
      = readA h r ∧
    readA (iid_spin_orientation_gaussian_isotropicH u h dr xi_spin sigma_spin).1 r
      = readA h r ∧
    readA (independent_spin_orientation_gaussian_isotropicH u h dr
      xi_spin sigma_1 sigma_2).1 r = readA h r ∧
    readA (gaussian_chi_effH u h dr mu_chi_eff sigma_chi_eff).1 r = readA h r ∧
    readA (gaussian_chi_pH u h dr mu_chi_p sigma_chi_p).1 r = readA h r ∧
    readA (GaussianChiEffChiP.callH u g h dr
      mu_chi_eff sigma_chi_eff mu_chi_p sigma_chi_p spin_covariance).1 r
      = readA h r :=
  ⟨(iid_spinH_preserves u h dr xi_spin sigma_spin amax alpha_chi beta_chi).2 r hr,
   (iid_spin_magnitude_betaH_preserves u h dr amax alpha_chi beta_chi).2 r hr,
   (independent_spin_magnitude_betaH_preserves u h dr
     alpha_chi_1 alpha_chi_2 beta_chi_1 beta_chi_2 amax_1 amax_2).2 r hr,
   (iid_spin_orientation_gaussian_isotropicH_preserves u h dr
     xi_spin sigma_spin).2 r hr,
   (independent_spin_orientation_gaussian_isotropicH_preserves u h dr
     xi_spin sigma_1 sigma_2).2 r hr,
   (gaussian_chi_effH_preserves u h dr mu_chi_eff sigma_chi_eff).2 r hr,
   (gaussian_chi_pH_preserves u h dr mu_chi_p sigma_chi_p).2 r hr,
   (callH_preserves u g h dr
     mu_chi_eff sigma_chi_eff mu_chi_p sigma_chi_p spin_covariance).2 r hr⟩

/-- Witness for C9 at a concrete store, dataset and reference. -/
theorem C9_models_do_not_mutate_dataset_witness :
    readA (iid_spinH uDemo hDemo drDemo 1 1 1 1 1).1 0 = readA hDemo 0 ∧
    readA (iid_spin_magnitude_betaH uDemo hDemo drDemo 1 1 1).1 0 = readA hDemo 0 ∧
    readA (independent_spin_magnitude_betaH uDemo hDemo drDemo 1 1 1 1 1 1).1 0
      = readA hDemo 0 ∧
    readA (iid_spin_orientation_gaussian_isotropicH uDemo hDemo drDemo 1 1).1 0
      = readA hDemo 0 ∧
    readA (independent_spin_orientation_gaussian_isotropicH uDemo hDemo drDemo 1 1 1).1 0
      = readA hDemo 0 ∧
    readA (gaussian_chi_effH uDemo hDemo drDemo 0 1).1 0 = readA hDemo 0 ∧
    readA (gaussian_chi_pH uDemo hDemo drDemo 0 1).1 0 = readA hDemo 0 ∧
    readA (GaussianChiEffChiP.callH uDemo GaussianChiEffChiP.init hDemo drDemo
      0 1 0 1 (1/2)).1 0 = readA hDemo 0 :=
  C9_models_do_not_mutate_dataset uDemo GaussianChiEffChiP.init hDemo drDemo
    1 1 1 1 1 1 1 1 1 1 1 1 1 0 1 0 1 (1/2) 0 (by norm_num [hDemo])

end GwPop
